import Mathlib

/-!
Shallow embedding of the LangGraph chat-orchestration pipeline
(src/state.py, src/workflow.py, src/agents/*.py) and proofs about it.

Python dict/JSON values are modelled by the inductive `JVal`; Python
truthiness by `JVal.truthy`; `dict.get` by `JVal.get` / `JVal.dget`.
Wall-clock timestamps (`datetime.now()`) are omitted from the model: no
verified property mentions them.  The remote MCP client is modelled as an
oracle `Nat → Attempt` giving the outcome of each attempt of a call.
-/

namespace Spec2Proof

/-- JSON-like values as passed around by the Python code. -/
inductive JVal where
  | null
  | b (v : Bool)
  | i (n : Int)
  | s (v : String)
  | arr (xs : List JVal)
  | obj (kvs : List (String × JVal))
deriving Repr

/-- Python truthiness (`if v:`): None, False, 0, "", [], {} are falsy. -/
def JVal.truthy : JVal → Bool
  | .null => false
  | .b v => v
  | .i n => n != 0
  | .s v => v != ""
  | .arr xs => !xs.isEmpty
  | .obj kvs => !kvs.isEmpty

/-- Python `d.get(k)` (None when missing or when `d` is not a dict).
`none` plays the role of Python's `None` result for a missing key;
a stored `None` value is returned as `some .null`. -/
def JVal.get (v : JVal) (k : String) : Option JVal :=
  match v with
  | .obj kvs => (kvs.find? (fun kv => kv.1 == k)).map (fun kv => kv.2)
  | _ => none

/-- Python `d.get(k, dflt)`. -/
def JVal.dget (v : JVal) (k : String) (dflt : JVal) : JVal :=
  match v.get k with
  | some x => x
  | none => dflt

/-- Truthiness of a `d.get(k)` result (`if d.get(k):`). -/
def optTruthy : Option JVal → Bool
  | none => false
  | some v => v.truthy

/-- Membership test `needle in hay` on character lists: needle starts here. -/
def hasPrefixL : List Char → List Char → Bool
  | _, [] => true
  | [], _ :: _ => false
  | c :: cs, d :: ds => c == d && hasPrefixL cs ds

/-- Membership test `needle in hay` on character lists (any position). -/
def hasSubL : List Char → List Char → Bool
  | [], needle => needle.isEmpty
  | c :: t, needle => hasPrefixL (c :: t) needle || hasSubL t needle

/-- Python `needle in hay` for strings. -/
def strContains (hay needle : String) : Bool :=
  hasSubL hay.data needle.data

/-! ## Tool Invoker (src/agents/tool_execution_agent.py) -/

/-- A planned tool call: `{"name": str, "parameters": dict}`. -/
structure ToolCall where
  name : String
  parameters : JVal
deriving Repr

/-- Tool classes from `ToolExecutionAgent._validate_parameters`:
tools that require an integer `resource_id`. -/
def resource_id_tools : List String :=
  ["get_resource_by_id", "get_resource_tickets", "get_resource_version",
   "get_resource_metadata", "get_changelog_by_resource",
   "get_changelog_list_by_resource", "get_notifications_by_resource"]

/-- Tools that require an `incident_id`. -/
def incident_id_tools : List String :=
  ["get_incident_by_id", "get_incident_changelogs", "get_incident_curated"]

/-- Tools that require a `query` parameter. -/
def query_tools : List String :=
  ["search_incidents", "search_resources", "search_tickets", "query_logs",
   "query_metrics"]

/-- Python test `p is None or p == "undefined" or p == ""` applied to
`parameters.get(k)` (a missing key yields None). -/
def invalidParam : Option JVal → Bool
  | none => true
  | some .null => true
  | some (.s v) => v == "undefined" || v == ""
  | some _ => false

/-- Model of `ToolExecutionAgent._validate_parameters`: each required-parameter class
is checked in turn; the function returns False exactly when the tool is in a
class and its required parameter is missing/empty/"undefined". -/
def validate_parameters (tool_name : String) (parameters : JVal) : Bool :=
  !(resource_id_tools.contains tool_name
      && invalidParam (parameters.get "resource_id"))
  && !(incident_id_tools.contains tool_name
      && invalidParam (parameters.get "incident_id"))
  && !(tool_name == "get_ticket_by_id"
      && invalidParam (parameters.get "ticket_id"))
  && !(query_tools.contains tool_name
      && invalidParam (parameters.get "query"))

/-- The kind-specific required parameter of a tool, if any (derived from the
same class lists; the four classes are pairwise disjoint). -/
def requiredParam (tool_name : String) : Option String :=
  if resource_id_tools.contains tool_name then some "resource_id"
  else if incident_id_tools.contains tool_name then some "incident_id"
  else if tool_name == "get_ticket_by_id" then some "ticket_id"
  else if query_tools.contains tool_name then some "query"
  else none

/-- The structured result returned when validation fails (no remote attempt):
`{"success": False, "error": f"Missing or invalid required parameters for
{tool_name}", "tool_name": tool_name}`. -/
def validationFailure (tool_name : String) : JVal :=
  .obj [("success", .b false),
        ("error", .s ("Missing or invalid required parameters for "
            ++ tool_name)),
        ("tool_name", .s tool_name)]

/-- The structured result returned when the last attempt raises:
`{"success": False, "error": str(e), "tool_name": tool_name}`. -/
def transportFailure (tool_name err : String) : JVal :=
  .obj [("success", .b false), ("error", .s err), ("tool_name", .s tool_name)]

/-- Outcome of one remote attempt: the value returned by
`client.execute_tool`, or the message of the exception it raised. -/
abbrev Attempt := Except String JVal

/-- The `for attempt in range(self.max_retries)` loop of
`_execute_single_tool_with_retry`.  `i` is the current attempt index, `rem+1`
the number of attempts still allowed (the current one included).  Returns the
function's return value together with the number of attempts consumed;
`none` is Python's implicit `return None` when the range is empty. -/
def attemptLoop (tool_name : String) (att : Nat → Attempt) :
    Nat → Nat → Option JVal × Nat
  | _, 0 => (none, 0)
  | i, 1 =>
    match att i with
    | .ok r => (some r, 1)
    | .error e => (some (transportFailure tool_name e), 1)
  | i, rem + 2 =>
    match att i with
    | .ok r => (some r, 1)
    | .error _ =>
      let p := attemptLoop tool_name att (i + 1) (rem + 1)
      (p.1, p.2 + 1)

/-- Model of `ToolExecutionAgent._execute_single_tool_with_retry` (result value). -/
def execute_single_tool_with_retry (att : Nat → Attempt) (max_retries : Nat)
    (call : ToolCall) : Option JVal :=
  if !validate_parameters call.name call.parameters then
    some (validationFailure call.name)
  else (attemptLoop call.name att 0 max_retries).1

/-- Number of remote attempts made by
`_execute_single_tool_with_retry` (0 when validation fails). -/
def attemptsUsed (att : Nat → Attempt) (max_retries : Nat)
    (call : ToolCall) : Nat :=
  if !validate_parameters call.name call.parameters then 0
  else (attemptLoop call.name att 0 max_retries).2

/-! ## Session State (src/state.py) -/

/-- One entry of `conversation_history`: `{"role": ..., "content": ...}`. -/
structure Message where
  role : String
  content : String
deriving Repr, DecidableEq

/-- One entry of `mcp_results` as built by `add_mcp_result`
(the wall-clock `timestamp` field is omitted).  `result` is the value
returned by the Tool Invoker (`none` models Python `None`); `success` is the
raw value `result.get("success", False)` (or `True` for a non-dict). -/
structure McpRecord where
  tool_name : String
  result : Option JVal
  success : JVal
  agent : String
deriving Repr

/-- The `success` tag computed by `add_mcp_result`:
`result.get("success", False) if isinstance(result, dict) else True`
(Python `None` is not a dict, hence tagged `True`). -/
def successFlag : Option JVal → JVal
  | some (.obj kvs) => (JVal.obj kvs).dget "success" (.b false)
  | some _ => .b true
  | none => .b true

/-- The `llm_analysis` dict stored under
`context_data["query_analysis"]["llm_analysis"]`, restricted to the keys the
comprehensive-query agent reads (with the `dict.get` defaults it uses). -/
structure LlmAnalysis where
  comprehensive : Bool := false
  scope : String := ""
  intent : String := ""
  multi_entity : Bool := false
deriving Repr, DecidableEq

/-- The extracted-identifier map built by `_extract_ids_from_results`;
each optional field models presence of the like-named dict key. -/
structure Extracted where
  resource_id : Option JVal := none
  resource_name : Option JVal := none
  incident_id : Option JVal := none
  incident_title : Option JVal := none
  ticket_id : Option JVal := none
  linked_resource_ids : Option (List JVal) := none
  linked_incident_ids : Option (List JVal) := none
deriving Repr

/-- Python `if not extracted:` — the dict has no keys. -/
def Extracted.isEmpty (e : Extracted) : Bool :=
  e.resource_id.isNone && e.resource_name.isNone && e.incident_id.isNone
    && e.incident_title.isNone && e.ticket_id.isNone
    && e.linked_resource_ids.isNone && e.linked_incident_ids.isNone

/-- The `ChatState` dict, restricted to the fields the modelled stages read
or write (request `timestamp`, quality scores and other fields never touched
by the verified operations are omitted). -/
structure ChatState where
  user_query : String
  session_id : String
  request_id : String
  query_type : String
  intent : String
  llm_analysis : LlmAnalysis
  available_tools : List String
  tool_plan : List ToolCall
  executed_tools : List String
  mcp_results : List McpRecord
  conversation_history : List Message
  final_response : String
  workflow_status : String
  current_agent : String
  error_count : Nat
  investigation_depth : Nat
  needs_comprehensive_followup : Bool
  extracted_ids : Extracted
  followup_tool_plan : List ToolCall
deriving Repr

/-- Model of `add_mcp_result` (src/state.py): append the structured record to
`mcp_results` and add the tool name to `executed_tools` if absent. -/
def add_mcp_result (s : ChatState) (tool_name : String) (result : Option JVal)
    (agent : String) : ChatState :=
  { s with
    mcp_results := s.mcp_results
      ++ [{ tool_name := tool_name, result := result,
            success := successFlag result, agent := agent }],
    executed_tools :=
      if s.executed_tools.contains tool_name then s.executed_tools
      else s.executed_tools ++ [tool_name] }

/-! ## Tool execution stage (`ToolExecutionAgent.execute_tools`)

The remote client is an oracle `att : Nat → Nat → Attempt` giving the
outcome of attempt `j` of the `i`-th call of the current plan.  All modelled
operations are total, so the agent's outer `except` branch (which would mark
the status `degraded`) is unreachable in the model. -/

/-- The record appended for one planned call. -/
def callRecord (agent : String) (att : Nat → Attempt) (max_retries : Nat)
    (c : ToolCall) : McpRecord :=
  { tool_name := c.name,
    result := execute_single_tool_with_retry att max_retries c,
    success := successFlag (execute_single_tool_with_retry att max_retries c),
    agent := agent }

/-- The `for tool_info in tool_plan` loop of `execute_tools`:
thread the state through `add_mcp_result`, one call at a time. -/
def execLoop (agent : String) (att : Nat → Nat → Attempt) (max_retries : Nat) :
    List ToolCall → Nat → ChatState → ChatState
  | [], _, st => st
  | c :: rest, i, st =>
    execLoop agent att max_retries rest (i + 1)
      (add_mcp_result st c.name
        (execute_single_tool_with_retry (att i) max_retries c) agent)

/-- The list of records the loop appends, in plan order. -/
def planRecords (agent : String) (att : Nat → Nat → Attempt)
    (max_retries : Nat) : List ToolCall → Nat → List McpRecord
  | [], _ => []
  | c :: rest, i =>
    callRecord agent (att i) max_retries c
      :: planRecords agent att max_retries rest (i + 1)

/-- Name of the tool-execution agent (`self.name`). -/
def toolAgentName : String := "ToolExecutionAgent"

/-- Model of `ToolExecutionAgent.execute_tools`: conversational queries skip execution
and mark the workflow `completed`; otherwise every planned call is executed
in order and appended to the state. -/
def execute_tools (att : Nat → Nat → Attempt) (max_retries : Nat)
    (s : ChatState) : ChatState :=
  if s.query_type == "conversational" then
    { s with workflow_status := "completed", current_agent := toolAgentName }
  else
    { execLoop toolAgentName att max_retries s.tool_plan 0 s with
      current_agent := toolAgentName }

/-! ## Entity Extractor
(`ComprehensiveQueryAgent._extract_ids_from_results`) -/

/-- Processing of one `mcp_results` entry by the extraction loop.
Failed results are skipped; results are dispatched on substring containment
of the tool name, in the source's `if/elif` order. -/
def extractStep (ex : Extracted) (r : McpRecord) : Extracted :=
  if !r.success.truthy then ex
  else
    let data := match r.result with | some v => v | none => .null
    if strContains r.tool_name "search_resources" then
      match data.dget "resources" (.arr []) with
      | .arr (resource :: _) =>
        if optTruthy (resource.get "id") then
          { ex with
            resource_id := resource.get "id",
            resource_name := some (resource.dget "resourceName" .null) }
        else ex
      | _ => ex
    else if strContains r.tool_name "search_incidents" then
      let sample := data.dget "sample" (.arr [])
      let incidents :=
        if sample.truthy then sample else data.dget "incidents" (.arr [])
      match incidents with
      | .arr (incident :: _) =>
        let ex1 :=
          if optTruthy (incident.get "id") then
            { ex with
              incident_id := incident.get "id",
              incident_title := some (incident.dget "title" .null) }
          else ex
        match incident.dget "resource_mapping" (.arr []) with
        | .arr (m :: ms) => { ex1 with linked_resource_ids := some (m :: ms) }
        | _ => ex1
      | _ => ex
    else if strContains r.tool_name "search_tickets"
        || strContains r.tool_name.toLower "ticket" then
      match data.dget "tickets" (.arr []) with
      | .arr (ticket :: _) =>
        let ex1 :=
          if optTruthy (ticket.get "id") then
            { ex with ticket_id := ticket.get "id" }
          else ex
        let ex2 :=
          if optTruthy (ticket.get "resourceId") then
            { ex1 with
              linked_resource_ids :=
                some ((ex1.linked_resource_ids.getD [])
                  ++ [(ticket.get "resourceId").getD .null]) }
          else ex1
        if optTruthy (ticket.get "incidentId") then
          { ex2 with
            linked_incident_ids :=
              some ((ex2.linked_incident_ids.getD [])
                ++ [(ticket.get "incidentId").getD .null]) }
        else ex2
      | _ => ex
    else ex

/-- Model of `_extract_ids_from_results`: fold the extraction step over the result
list, starting from the empty map. -/
def extract_ids_from_results (mcp_results : List McpRecord) : Extracted :=
  mcp_results.foldl extractStep {}

/-! ## Follow-up decision (`ComprehensiveQueryAgent.analyze_and_expand`) -/

/-- Keywords signalling comprehensive intent in the raw query. -/
def comprehensive_keywords : List String :=
  ["everything", "all details", "all information", "complete",
   "comprehensive", "tell me about", "full details", "tell me everything",
   "get details", "full status", "complete info"]

/-- Keywords signalling cross-entity relationships in the raw query. -/
def cross_entity_keywords : List String :=
  ["and their", "and its", "with their", "with its",
   "related", "linked", "associated", "affected",
   "along with", "together with"]

/-- Keywords signalling detail-seeking intent. -/
def detailed_intent_keywords : List String :=
  ["get details", "tell me about", "full", "complete", "all"]

/-- The comprehensive-class tool names used by the duplicate-expansion
guard. -/
def comprehensive_tools : List String :=
  ["get_resource_by_id", "get_resource_version", "get_resource_metadata",
   "get_changelog_by_resource", "get_resource_tickets",
   "get_notifications_by_resource",
   "get_incident_by_id", "get_incident_changelogs"]

/-- Model of `analyze_and_expand`: decide from OR-combined signals whether to expand;
skip when no signal holds, when no identifiers were extracted, or when a
comprehensive-class tool already ran; otherwise set the pending flag and the
extracted-identifier map. -/
def analyze_and_expand (s : ChatState) : ChatState :=
  let user_query := s.user_query.toLower
  let is_comprehensive := s.llm_analysis.comprehensive
  let scope := s.llm_analysis.scope
  let intent := s.llm_analysis.intent.toLower
  let is_multi_entity := s.llm_analysis.multi_entity
  let has_comprehensive_keyword :=
    comprehensive_keywords.any (fun k => strContains user_query k)
  let has_cross_entity_keyword :=
    cross_entity_keywords.any (fun k => strContains user_query k)
  let wants_details :=
    detailed_intent_keywords.any (fun k => strContains intent k)
  let should_expand := is_comprehensive || has_comprehensive_keyword
    || (scope == "single" && wants_details)
    || (is_multi_entity && has_cross_entity_keyword)
  if !should_expand then s
  else if (extract_ids_from_results s.mcp_results).isEmpty then s
  else if comprehensive_tools.any (fun t => s.executed_tools.contains t)
  then s
  else
    { s with needs_comprehensive_followup := true,
             extracted_ids := extract_ids_from_results s.mcp_results }

/-! ## Follow-up Planner (`ComprehensiveQueryAgent.create_followup_plan`) -/

/-- The six per-resource detail calls planned for a resolved resource id. -/
def resourceFamilyCalls (rid : JVal) : List ToolCall :=
  [{ name := "get_resource_by_id", parameters := .obj [("resource_id", rid)] },
   { name := "get_resource_version", parameters := .obj [("resource_id", rid)] },
   { name := "get_resource_metadata", parameters := .obj [("resource_id", rid)] },
   { name := "get_resource_tickets", parameters := .obj [("resource_id", rid)] },
   { name := "get_changelog_by_resource", parameters := .obj [("resource_id", rid)] },
   { name := "get_notifications_by_resource", parameters := .obj [("resource_id", rid)] }]

/-- The two per-incident detail calls planned for a resolved incident id. -/
def incidentFamilyCalls (iid : JVal) : List ToolCall :=
  [{ name := "get_incident_by_id", parameters := .obj [("incident_id", iid)] },
   { name := "get_incident_changelogs", parameters := .obj [("incident_id", iid)] }]

/-- The identity-detail calls for linked resource ids:
`for resource_id in linked_resources[:5]`. -/
def linkedResourceCalls (e : Extracted) : List ToolCall :=
  match e.linked_resource_ids with
  | some l => (l.take 5).map (fun rid =>
      { name := "get_resource_by_id",
        parameters := .obj [("resource_id", rid)] })
  | none => []

/-- The identity-detail calls for linked incident ids:
`for incident_id in linked_incidents[:5]`. -/
def linkedIncidentCalls (e : Extracted) : List ToolCall :=
  match e.linked_incident_ids with
  | some l => (l.take 5).map (fun iid =>
      { name := "get_incident_by_id",
        parameters := .obj [("incident_id", iid)] })
  | none => []

/-- The full follow-up plan built from an extracted-identifier map. -/
def followupTools (e : Extracted) : List ToolCall :=
  (match e.resource_id with
   | some rid => resourceFamilyCalls rid
   | none => [])
  ++ (match e.incident_id with
      | some iid => incidentFamilyCalls iid
      | none => [])
  ++ linkedResourceCalls e ++ linkedIncidentCalls e

/-- Model of `create_followup_plan`: when the pending flag is set and identifiers
exist, store the (non-empty) built plan in `followup_tool_plan`. -/
def create_followup_plan (s : ChatState) : ChatState :=
  if !s.needs_comprehensive_followup then s
  else if s.extracted_ids.isEmpty then s
  else if (followupTools s.extracted_ids).isEmpty then s
  else { s with followup_tool_plan := followupTools s.extracted_ids }

/-! ## Finish stage (`EnhancedLangGraphWorkflow._orchestrator_finish_node`) -/

/-- Model of `_orchestrator_finish_node`: append the (user query, final answer) pair
to the conversation history, trim to the last 10 entries, and mark the
workflow `completed` (the wall-clock `completion_timestamp` is omitted). -/
def orchestrator_finish (s : ChatState) : ChatState :=
  let h := s.conversation_history
    ++ [{ role := "user", content := s.user_query },
        { role := "assistant", content := s.final_response }]
  let h2 := if 10 < h.length then h.drop (h.length - 10) else h
  { s with conversation_history := h2, workflow_status := "completed" }

/-! ## Initial validation (src/agents/orchestrator_agent.py) -/

/-- Quality threshold `minimum_query_length`. -/
def minimum_query_length : Nat := 3

/-- Quality threshold `maximum_query_length`. -/
def maximum_query_length : Nat := 1000

/-- Result of `OrchestratorAgent._validate_initial_state`. -/
structure ValidationResult where
  valid : Bool
  errors : List String
  warnings : List String
deriving Repr

/-- Model of `_validate_initial_state`: empty required fields and a too-short query
are errors (validation fails); a query above the maximum length only adds a
warning. -/
def validate_initial_state (s : ChatState) : ValidationResult :=
  let required : List (String × String) :=
    [("user_query", s.user_query), ("session_id", s.session_id),
     ("request_id", s.request_id)]
  let errs0 := required.filterMap (fun kv =>
    if kv.2 == "" then some ("Missing required field: " ++ kv.1) else none)
  let errs1 :=
    if s.user_query.length < minimum_query_length then
      errs0 ++ ["Query too short (minimum 3 characters)"]
    else errs0
  let warns :=
    if maximum_query_length < s.user_query.length then
      ["Query very long"]
    else []
  { valid := errs1.isEmpty, errors := errs1, warnings := warns }

/-- Model of `OrchestratorAgent.orchestrate_workflow` composed with the status update
done by `_orchestrator_start_node` is not modelled beyond status/error
effects: on validation failure the turn is marked `failed` with the error
count and a failure answer; on success the status becomes `running`. -/
def orchestrate_workflow (s : ChatState) : ChatState :=
  let v := validate_initial_state s
  if !v.valid then
    { s with workflow_status := "failed",
             error_count := v.errors.length,
             final_response := "Request validation failed: "
               ++ String.intercalate ", " v.errors }
  else
    { s with workflow_status := "running", current_agent := "orchestrator" }

/-- Model of `_orchestrator_start_node` (src/workflow.py): load the Tool
Service catalog into the state, run the orchestrator's validation, then
return the result with the workflow status unconditionally overwritten to
"running" and the investigation depth set to 1 — even when validation just
marked the state "failed".  (The dynamically added `tool_schemas` key is
omitted: no modelled stage reads it.) -/
def orchestrator_start_node (catalog : List String) (s : ChatState) :
    ChatState :=
  { orchestrate_workflow { s with available_tools := catalog } with
    workflow_status := "running", investigation_depth := 1 }

/-! ## Helper lemmas -/

/-- The execution loop only appends to `mcp_results`: the final result list
is the initial one followed by the per-call records, in plan order. -/
theorem execLoop_mcp_results (agent : String) (att : Nat → Nat → Attempt)
    (k : Nat) (plan : List ToolCall) : ∀ (i : Nat) (st : ChatState),
    (execLoop agent att k plan i st).mcp_results
      = st.mcp_results ++ planRecords agent att k plan i := by
  induction plan with
  | nil => intro i st; simp [execLoop, planRecords]
  | cons c rest ih =>
    intro i st
    rw [execLoop, planRecords, ih]
    simp [add_mcp_result, callRecord]

/-- The execution loop never changes the workflow status. -/
theorem execLoop_status (agent : String) (att : Nat → Nat → Attempt)
    (k : Nat) (plan : List ToolCall) : ∀ (i : Nat) (st : ChatState),
    (execLoop agent att k plan i st).workflow_status = st.workflow_status := by
  induction plan with
  | nil => intro i st; rfl
  | cons c rest ih =>
    intro i st
    rw [execLoop, ih]
    rfl

/-- Record tool names agree with plan tool names, position by position. -/
theorem planRecords_names (agent : String) (att : Nat → Nat → Attempt)
    (k : Nat) (plan : List ToolCall) : ∀ (i : Nat),
    (planRecords agent att k plan i).map McpRecord.tool_name
      = plan.map ToolCall.name := by
  induction plan with
  | nil => intro i; rfl
  | cons c rest ih =>
    intro i
    simp [planRecords, callRecord, ih]

/-- Every appended record carries the success tag derived from its result. -/
theorem planRecords_success (agent : String) (att : Nat → Nat → Attempt)
    (k : Nat) (plan : List ToolCall) : ∀ (i : Nat),
    ∀ r ∈ planRecords agent att k plan i, r.success = successFlag r.result := by
  induction plan with
  | nil => intro i r hr; simp [planRecords] at hr
  | cons c rest ih =>
    intro i r hr
    rw [planRecords] at hr
    rcases List.mem_cons.mp hr with h | h
    · subst h; rfl
    · exact ih (i + 1) r h

/-- Extraction skips a record whose success tag is falsy. -/
theorem extractStep_of_failed (ex : Extracted) (r : McpRecord)
    (h : r.success.truthy = false) : extractStep ex r = ex := by
  simp [extractStep, h]

/-- Folding the extraction step over a list equals folding it over the
sublist of successful records only. -/
theorem foldl_extract_filter (rs : List McpRecord) : ∀ (ex : Extracted),
    rs.foldl extractStep ex
      = (rs.filter (fun r => r.success.truthy)).foldl extractStep ex := by
  induction rs with
  | nil => intro ex; rfl
  | cons r rest ih =>
    intro ex
    by_cases h : r.success.truthy
    · rw [List.foldl_cons, List.filter_cons, if_pos h, List.foldl_cons, ih]
    · rw [List.foldl_cons, List.filter_cons, if_neg h,
        extractStep_of_failed ex r (by simpa using h), ih]

/-! ## Claim theorems -/

/-- C10: result records whose success flag is falsy contribute nothing to
identifier extraction — extraction over the full result list equals
extraction over the successful results only, so a failed search never
yields a resource, incident, ticket, or linked id. -/
theorem c10_failed_results_extract_nothing (rs : List McpRecord) :
    extract_ids_from_results rs
      = extract_ids_from_results (rs.filter (fun r => r.success.truthy)) := by
  rw [extract_ids_from_results, extract_ids_from_results,
    foldl_extract_filter]

/-- The two conversation-history entries appended by the finish stage. -/
def finishEntries (s : ChatState) : List Message :=
  [{ role := "user", content := s.user_query },
   { role := "assistant", content := s.final_response }]

/-- C7: after the finish stage appends the (user query, final answer) pair,
the conversation history has at most 10 entries, and the entries kept are
exactly the last 10 of the extended history (oldest dropped first). -/
theorem c7_history_cap (s : ChatState) :
    ((orchestrator_finish s).conversation_history).length ≤ 10
    ∧ (orchestrator_finish s).conversation_history
      = (s.conversation_history ++ finishEntries s).drop
          ((s.conversation_history.length + 2) - 10) := by
  have hlen : (s.conversation_history ++ finishEntries s).length
      = s.conversation_history.length + 2 := by
    simp [finishEntries]
  have hfin : orchestrator_finish s
      = { s with
          conversation_history :=
            if 10 < (s.conversation_history ++ finishEntries s).length then
              (s.conversation_history ++ finishEntries s).drop
                ((s.conversation_history ++ finishEntries s).length - 10)
            else s.conversation_history ++ finishEntries s,
          workflow_status := "completed" } := rfl
  rw [hfin]
  simp only [hlen]
  by_cases h : 10 < s.conversation_history.length + 2
  · constructor
    · simp only [if_pos h, List.length_drop, hlen]
      omega
    · simp only [if_pos h]
  · constructor
    · simp only [if_neg h, hlen]
      omega
    · simp only [if_neg h]
      rw [show s.conversation_history.length + 2 - 10 = 0 by omega,
        List.drop_zero]

/-- C6: when a comprehensive-class tool name already appears in the
executed-tool set, the follow-up decision step leaves the state unchanged:
the pending-expansion flag is not set and no plan is emitted, even when
expansion signals are present. -/
theorem c6_duplicate_expansion_guard (s : ChatState)
    (h : comprehensive_tools.any (fun t => s.executed_tools.contains t)
      = true) :
    (analyze_and_expand s).needs_comprehensive_followup
        = s.needs_comprehensive_followup
    ∧ (analyze_and_expand s).followup_tool_plan = s.followup_tool_plan
    ∧ analyze_and_expand s = s := by
  have key : analyze_and_expand s = s := by
    rw [analyze_and_expand]
    simp only [h, if_true, ite_self]
  exact ⟨by rw [key], by rw [key], key⟩

/-- Model of `create_initial_state` (src/state.py), restricted to the
modelled fields; the caller supplies the generated session/request ids. -/
def create_initial_state (user_query session_id request_id : String) :
    ChatState :=
  { user_query := user_query, session_id := session_id,
    request_id := request_id, query_type := "general", intent := "unknown",
    llm_analysis := {}, available_tools := [], tool_plan := [],
    executed_tools := [], mcp_results := [], conversation_history := [],
    final_response := "", workflow_status := "initialized",
    current_agent := "orchestrator", error_count := 0,
    investigation_depth := 0, needs_comprehensive_followup := false,
    extracted_ids := {}, followup_tool_plan := [] }

/-- A state in which expansion signals are present (comprehensive flag set,
identifiers extractable) but a comprehensive-class tool has already run. -/
def guardedState : ChatState :=
  { create_initial_state "tell me everything about vector-0" "sess" "req" with
    query_type := "exploration",
    llm_analysis := { comprehensive := true, scope := "single",
                      intent := "get details", multi_entity := false },
    executed_tools := ["search_resources", "get_resource_by_id"],
    mcp_results :=
      [{ tool_name := "search_resources",
         result := some (.obj [("success", .b true),
           ("resources", .arr [.obj [("id", .i 77),
             ("resourceName", .s "vector-0")]])]),
         success := .b true, agent := toolAgentName }],
    workflow_status := "running" }

/-- Witness for C6: on a concrete state with every expansion signal present
but `get_resource_by_id` already executed, the decision step is the
identity. -/
theorem c6_witness : analyze_and_expand guardedState = guardedState :=
  (c6_duplicate_expansion_guard guardedState (by decide)).2.2

/-- A conversational state carrying a non-empty tool plan. -/
def convState : ChatState :=
  { create_initial_state "hello there" "sess" "req" with
    query_type := "conversational",
    tool_plan := [{ name := "search_resources",
                    parameters := .obj [("query", .s "hello")] }],
    workflow_status := "running" }

/-- An MCP oracle whose calls all fail with a fixed transport error. -/
def failingOracle : Nat → Nat → Attempt := fun _ _ => .error "connection refused"

/-- Counterexample for C1: on a conversational state the execute stage
returns without appending anything, so a plan of length 1 yields 0 new
result records rather than 1. -/
theorem c1_counterexample :
    convState.tool_plan.length = 1
    ∧ (execute_tools failingOracle 2 convState).mcp_results.length
        = convState.mcp_results.length
    ∧ ¬ ((execute_tools failingOracle 2 convState).mcp_results.length
        = convState.mcp_results.length + convState.tool_plan.length) := by
  exact ⟨rfl, rfl, by decide⟩

/-- C1 (amended to non-conversational states): the execute stage appends
exactly one result record per planned call, in plan order, each tagged with
the success flag derived from its result, and the pre-existing records stay
an unchanged prefix. -/
theorem c1_execute_appends (att : Nat → Nat → Attempt) (k : Nat)
    (s : ChatState) (h : s.query_type ≠ "conversational") :
    (execute_tools att k s).mcp_results
      = s.mcp_results ++ planRecords toolAgentName att k s.tool_plan 0
    ∧ (planRecords toolAgentName att k s.tool_plan 0).length
        = s.tool_plan.length
    ∧ (planRecords toolAgentName att k s.tool_plan 0).map McpRecord.tool_name
        = s.tool_plan.map ToolCall.name
    ∧ ∀ r ∈ planRecords toolAgentName att k s.tool_plan 0,
        r.success = successFlag r.result := by
  have hq : (s.query_type == "conversational") = false := by
    simpa using h
  refine ⟨?_, ?_, planRecords_names toolAgentName att k s.tool_plan 0,
    planRecords_success toolAgentName att k s.tool_plan 0⟩
  · rw [execute_tools, hq]
    simp only [Bool.false_eq_true, if_false]
    exact execLoop_mcp_results toolAgentName att k s.tool_plan 0 s
  · have hmap := congrArg List.length
      (planRecords_names toolAgentName att k s.tool_plan 0)
    simpa using hmap

/-- A plain non-conversational state with a one-call plan. -/
def simpleState : ChatState :=
  { create_initial_state "find cpu spikes" "sess" "req" with
    tool_plan := [{ name := "search_resources",
                    parameters := .obj [("query", .s "cpu")] }],
    workflow_status := "running" }

/-- Witness for C1: on a concrete non-conversational state the appended
record list is exactly the per-call record list. -/
theorem c1_witness :
    (execute_tools failingOracle 2 simpleState).mcp_results
      = simpleState.mcp_results
        ++ planRecords toolAgentName failingOracle 2 simpleState.tool_plan 0
    ∧ (planRecords toolAgentName failingOracle 2 simpleState.tool_plan 0).length
      = simpleState.tool_plan.length :=
  ⟨(c1_execute_appends failingOracle 2 simpleState (by decide)).1,
   (c1_execute_appends failingOracle 2 simpleState (by decide)).2.1⟩

/-- Counterexample for C9: the execute stage — not the final stage — sets
the workflow status to `completed` when the query is conversational. -/
theorem c9_counterexample :
    convState.workflow_status = "running"
    ∧ (execute_tools failingOracle 2 convState).workflow_status
        = "completed" := by
  exact ⟨rfl, rfl⟩

/-- C9 (amended): the finish stage always sets status `completed`; the
execute stage preserves the status except for conversational queries (where
it sets `completed` early); the expansion-decision and follow-up-planning
stages never change the status; initial validation yields only `running` or
`failed`. -/
theorem c9_status_discipline (att : Nat → Nat → Attempt) (k : Nat)
    (s : ChatState) (h : s.query_type ≠ "conversational") :
    (execute_tools att k s).workflow_status = s.workflow_status
    ∧ (orchestrator_finish s).workflow_status = "completed"
    ∧ (analyze_and_expand s).workflow_status = s.workflow_status
    ∧ (create_followup_plan s).workflow_status = s.workflow_status
    ∧ ((orchestrate_workflow s).workflow_status = "running"
        ∨ (orchestrate_workflow s).workflow_status = "failed") := by
  have hq : (s.query_type == "conversational") = false := by
    simpa using h
  refine ⟨?_, rfl, ?_, ?_, ?_⟩
  · rw [execute_tools, hq]
    simp only [Bool.false_eq_true, if_false]
    exact execLoop_status toolAgentName att k s.tool_plan 0 s
  · rw [analyze_and_expand]
    split
    · rfl
    · split
      · rfl
      · split
        · rfl
        · rfl
  · rw [create_followup_plan]
    split
    · rfl
    · split
      · rfl
      · split
        · rfl
        · rfl
  · rw [orchestrate_workflow]
    split
    · exact Or.inr rfl
    · exact Or.inl rfl

/-- Witness for C9: the amended status facts at a concrete
non-conversational state. -/
theorem c9_witness :
    (execute_tools failingOracle 2 simpleState).workflow_status
      = simpleState.workflow_status
    ∧ (orchestrator_finish simpleState).workflow_status = "completed" :=
  ⟨(c9_status_discipline failingOracle 2 simpleState (by decide)).1,
   (c9_status_discipline failingOracle 2 simpleState (by decide)).2.1⟩

/-- A tool whose kind-specific required parameter is invalid never passes
validation. -/
theorem validate_false_of_invalid (tool_name : String) (parameters : JVal)
    (p : String) (hp : requiredParam tool_name = some p)
    (hinv : invalidParam (parameters.get p) = true) :
    validate_parameters tool_name parameters = false := by
  rw [requiredParam] at hp
  split at hp
  next hmem =>
    cases hp
    simp only [validate_parameters, hmem, hinv, Bool.and_self, Bool.not_true,
      Bool.false_and, Bool.and_false]
  next =>
    split at hp
    next hmem =>
      cases hp
      simp only [validate_parameters, hmem, hinv, Bool.and_self,
        Bool.not_true, Bool.false_and, Bool.and_false]
    next =>
      split at hp
      next hmem =>
        cases hp
        simp only [validate_parameters, hmem, hinv, Bool.and_self,
          Bool.not_true, Bool.false_and, Bool.and_false]
      next =>
        split at hp
        next hmem =>
          cases hp
          simp only [validate_parameters, hmem, hinv, Bool.and_self,
            Bool.not_true, Bool.false_and, Bool.and_false]
        next => exact Option.noConfusion hp

/-- C2 (amended): a tool call whose kind-specific required parameter is
missing, empty, or the literal "undefined" is answered by the structured
validation failure (success false) without consulting the remote oracle at
all — the outcome is independent of the oracle and zero attempts are made.
The failure record carries the tool name and a generic message; the
offending parameter name itself appears only in the log, not in the
result. -/
theorem c2_validation_short_circuit (att att' : Nat → Attempt) (k : Nat)
    (call : ToolCall) (p : String)
    (hp : requiredParam call.name = some p)
    (hinv : invalidParam (call.parameters.get p) = true) :
    execute_single_tool_with_retry att k call
      = some (validationFailure call.name)
    ∧ execute_single_tool_with_retry att k call
      = execute_single_tool_with_retry att' k call
    ∧ attemptsUsed att k call = 0 := by
  have hv := validate_false_of_invalid call.name call.parameters p hp hinv
  refine ⟨?_, ?_, ?_⟩ <;>
    simp [execute_single_tool_with_retry, attemptsUsed, hv]

/-- Counterexample for C2: for `search_resources` with no `query` parameter
the recorded failure is `validationFailure "search_resources"`, whose error
text and tool name do not contain the offending parameter name `query` —
the result is not "recorded with the offending parameter name". -/
theorem c2_counterexample :
    execute_single_tool_with_retry (fun _ => .error "never reached") 2
        { name := "search_resources", parameters := .obj [] }
      = some (validationFailure "search_resources")
    ∧ strContains "Missing or invalid required parameters for search_resources"
        "query" = false
    ∧ strContains "search_resources" "query" = false := by
  exact ⟨rfl, by decide, by decide⟩

/-- A concrete resource-detail call with the literal "undefined" id. -/
def undefinedIdCall : ToolCall :=
  { name := "get_resource_by_id",
    parameters := .obj [("resource_id", .s "undefined")] }

/-- Witness for C2: the concrete call with `resource_id = "undefined"` is
rejected by validation, independent of the oracle, with zero attempts. -/
theorem c2_witness :
    execute_single_tool_with_retry (fun _ => .error "never reached") 2
        undefinedIdCall
      = some (validationFailure "get_resource_by_id")
    ∧ attemptsUsed (fun _ => .error "never reached") 2 undefinedIdCall = 0 :=
  ⟨(c2_validation_short_circuit (fun _ => .error "never reached")
      (fun _ => .ok .null) 2 undefinedIdCall "resource_id"
      (by decide) (by decide)).1,
   (c2_validation_short_circuit (fun _ => .error "never reached")
      (fun _ => .ok .null) 2 undefinedIdCall "resource_id"
      (by decide) (by decide)).2.2⟩

/-- When every attempt up to the allowance raises, the retry loop consumes
exactly its allowance and returns the transport failure built from the last
attempt's error. -/
theorem attemptLoop_all_fail (tool_name : String) (att : Nat → Attempt)
    (e : Nat → String) :
    ∀ (k i : Nat), 0 < k → (∀ j, j < k → att (i + j) = .error (e (i + j))) →
    attemptLoop tool_name att i k
      = (some (transportFailure tool_name (e (i + k - 1))), k) := by
  intro k
  induction k with
  | zero => intro i hk; omega
  | succ rem ih =>
    intro i hk hf
    have h0 : att i = .error (e i) := by simpa using hf 0 (by omega)
    cases rem with
    | zero =>
      rw [attemptLoop, h0]
      simp
    | succ r =>
      have hrec := ih (i + 1) (by omega) (fun j hj => by
        have := hf (j + 1) (by omega)
        rwa [show i + (j + 1) = i + 1 + j by omega] at this)
      rw [attemptLoop, h0, hrec]
      rw [show i + 1 + (r + 1) - 1 = i + (r + 1 + 1) - 1 by omega]

/-- C3: a validated tool call whose every remote attempt raises is attempted
exactly `max_retries` times (the agent's default configuration is
`max_retries = 2`) and is answered by the structured failure carrying the
last attempt's error; earlier attempts surface nothing. -/
theorem c3_retry_exhaustion (att : Nat → Attempt) (e : Nat → String)
    (k : Nat) (call : ToolCall) (hk : 0 < k)
    (hv : validate_parameters call.name call.parameters = true)
    (hfail : ∀ j, j < k → att j = .error (e j)) :
    execute_single_tool_with_retry att k call
      = some (transportFailure call.name (e (k - 1)))
    ∧ attemptsUsed att k call = k := by
  have hl := attemptLoop_all_fail call.name att e k 0 hk
    (fun j hj => by simpa using hfail j hj)
  rw [show (0 : Nat) + k - 1 = k - 1 by omega] at hl
  constructor
  · simp [execute_single_tool_with_retry, hv, hl]
  · simp [attemptsUsed, hv, hl]

/-- A concrete valid search call. -/
def cpuSearchCall : ToolCall :=
  { name := "search_resources", parameters := .obj [("query", .s "cpu")] }

/-- Witness for C3: with the default configuration of 2 attempts and a
permanently failing transport, the concrete call consumes exactly 2 attempts
and surfaces the last error. -/
theorem c3_witness :
    execute_single_tool_with_retry (fun _ => .error "connection refused") 2
        cpuSearchCall
      = some (transportFailure "search_resources" "connection refused")
    ∧ attemptsUsed (fun _ => .error "connection refused") 2 cpuSearchCall
      = 2 :=
  c3_retry_exhaustion (fun _ => .error "connection refused")
    (fun _ => "connection refused") 2 cpuSearchCall (by decide) (by decide)
    (fun j hj => rfl)

/-- The identity-detail call planned for one linked resource id. -/
def linkedResourceCall (rid : JVal) : ToolCall :=
  { name := "get_resource_by_id",
    parameters := .obj [("resource_id", rid)] }

/-- The identity-detail call planned for one linked incident id. -/
def linkedIncidentCall (iid : JVal) : ToolCall :=
  { name := "get_incident_by_id",
    parameters := .obj [("incident_id", iid)] }

/-- C5: when the extracted linked-resource-id list has more than 5 entries,
the Follow-up Planner's linked-resource segment consists of exactly the
identity-detail calls for the first 5 ids, in list order (so at most 5 such
calls); the linked-incident segment obeys the same cap of 5; and whenever
the pending flag is set, the stored follow-up plan is exactly the built
plan containing those segments. -/
theorem c5_linked_fanout_cap (e : Extracted) (l : List JVal)
    (hl : e.linked_resource_ids = some l) (hlen : 5 < l.length) :
    linkedResourceCalls e = (l.take 5).map linkedResourceCall
    ∧ (linkedResourceCalls e).length = 5
    ∧ (∀ l', e.linked_incident_ids = some l' →
        linkedIncidentCalls e = (l'.take 5).map linkedIncidentCall
        ∧ (linkedIncidentCalls e).length ≤ 5)
    ∧ ∀ s : ChatState, s.needs_comprehensive_followup = true →
        s.extracted_ids = e →
        (create_followup_plan s).followup_tool_plan = followupTools e := by
  have hlr : linkedResourceCalls e = (l.take 5).map linkedResourceCall := by
    rw [linkedResourceCalls, hl]
    rfl
  have hlrlen : (linkedResourceCalls e).length = 5 := by
    rw [hlr, List.length_map, List.length_take]
    omega
  refine ⟨hlr, hlrlen, ?_, ?_⟩
  · intro l' hl'
    constructor
    · rw [linkedIncidentCalls, hl']
      rfl
    · rw [linkedIncidentCalls, hl', List.length_map, List.length_take]
      omega
  · intro s hpend hext
    have hne : (followupTools e).isEmpty = false := by
      have hsub : (followupTools e).length
          = (match e.resource_id with
             | some rid => resourceFamilyCalls rid
             | none => []).length
            + (match e.incident_id with
               | some iid => incidentFamilyCalls iid
               | none => []).length
            + (linkedResourceCalls e).length
            + (linkedIncidentCalls e).length := by
        rw [followupTools]
        simp [List.length_append]
        omega
      rw [List.isEmpty_eq_false_iff_exists_mem]
      have hpos : 0 < (followupTools e).length := by
        rw [hsub, hlrlen]
        omega
      rcases List.exists_mem_of_length_pos hpos with ⟨x, hx⟩
      exact ⟨x, hx⟩
    have hee : e.isEmpty = false := by
      rw [Extracted.isEmpty, hl]
      simp
    rw [create_followup_plan, hext, hpend, hee, hne]
    simp

/-- A concrete extracted-identifier map with 7 linked resource ids and 3
linked incident ids. -/
def sevenLinked : Extracted :=
  { linked_resource_ids :=
      some [.i 1, .i 2, .i 3, .i 4, .i 5, .i 6, .i 7],
    linked_incident_ids := some [.i 8, .i 9] }

/-- Witness for C5: on the concrete 7-entry map the planner emits exactly
the first five identity-detail calls. -/
theorem c5_witness :
    linkedResourceCalls sevenLinked
      = ([JVal.i 1, .i 2, .i 3, .i 4, .i 5].map linkedResourceCall)
    ∧ (linkedResourceCalls sevenLinked).length = 5 :=
  ⟨(c5_linked_fanout_cap sevenLinked
      [.i 1, .i 2, .i 3, .i 4, .i 5, .i 6, .i 7] rfl (by decide)).1,
   (c5_linked_fanout_cap sevenLinked
      [.i 1, .i 2, .i 3, .i 4, .i 5, .i 6, .i 7] rfl (by decide)).2.1⟩

/-- A query shorter than 3 characters fails initial validation: the turn
ends `failed`. -/
theorem orchestrate_fail_of_short (s : ChatState)
    (hshort : s.user_query.length < 3) :
    (orchestrate_workflow s).workflow_status = "failed" := by
  have hlt : (s.user_query.length < minimum_query_length) = True := by
    simp [minimum_query_length, hshort]
  have hval : (validate_initial_state s).valid = false := by
    rw [validate_initial_state]
    simp only [hlt, if_true]
    simp
  rw [orchestrate_workflow, hval]
  simp

/-- A query of length at least 3 with session and request ids present passes
initial validation — whatever its length — and the turn proceeds with
status `running`. -/
theorem orchestrate_run_of_valid (s : ChatState)
    (hlong : 3 ≤ s.user_query.length) (hsid : s.session_id ≠ "")
    (hrid : s.request_id ≠ "") :
    (orchestrate_workflow s).workflow_status = "running" := by
  have huq : (s.user_query == "") = false := by
    have h1 : s.user_query ≠ "" := by
      intro h0
      rw [h0] at hlong
      simp at hlong
    simpa using h1
  have hsid' : (s.session_id == "") = false := by simpa using hsid
  have hrid' : (s.request_id == "") = false := by simpa using hrid
  have hlt : ¬ (s.user_query.length < minimum_query_length) := by
    rw [minimum_query_length]
    omega
  have hval : (validate_initial_state s).valid = true := by
    rw [validate_initial_state]
    simp [List.filterMap, huq, hsid', hrid', hlt]
  rw [orchestrate_workflow, hval]
  simp

/-- A query of 1001 characters (above the configured maximum of 1000). -/
def longQuery : String := String.mk (List.replicate 1001 'a')

/-- Counterexample for C8: a 1001-character query (with session and request
ids present) passes initial validation — the code only files a warning for
over-long queries; and even a 2-character query, which the validator does
mark `failed`, leaves the start node with status `running`, because the
node unconditionally overwrites the status — the turn is not aborted. -/
theorem c8_counterexample :
    1000 < longQuery.length
    ∧ (orchestrate_workflow
        (create_initial_state longQuery "sess" "req")).workflow_status
      = "running"
    ∧ ¬ ((orchestrate_workflow
        (create_initial_state longQuery "sess" "req")).workflow_status
      = "failed")
    ∧ (orchestrator_start_node ["search_resources"]
        (create_initial_state "hi" "sess" "req")).workflow_status
      = "running"
    ∧ ¬ ((orchestrator_start_node ["search_resources"]
        (create_initial_state "hi" "sess" "req")).workflow_status
      = "failed") := by
  have hlen : longQuery.length = 1001 := by
    show (List.replicate 1001 'a').length = 1001
    rw [List.length_replicate]
  have hrun := orchestrate_run_of_valid
    (create_initial_state longQuery "sess" "req")
    (by rw [show (create_initial_state longQuery "sess" "req").user_query
        = longQuery from rfl, hlen]; omega)
    (by simp [create_initial_state])
    (by simp [create_initial_state])
  refine ⟨by omega, hrun, ?_, rfl, by decide⟩
  intro h
  rw [hrun] at h
  simp at h

/-- C8 (amended): the validator component alone fails exactly queries
shorter than 3 characters or with missing required fields (marking the
state `failed`), and an over-maximum length only produces a warning (such
queries pass with status `running`); but the validator's verdict does not
end the turn: the start node hands every state onward with status
`running`, and the finish stage — reached through the graph's unconditional
edges — sets `completed`, so even an invalid query flows through the Oracle
and tool stages rather than aborting. -/
theorem c8_initial_validation (catalog : List String) (s : ChatState) :
    (s.user_query.length < 3 →
      (orchestrate_workflow s).workflow_status = "failed")
    ∧ (3 ≤ s.user_query.length → s.session_id ≠ "" → s.request_id ≠ "" →
      (orchestrate_workflow s).workflow_status = "running")
    ∧ (orchestrator_start_node catalog s).workflow_status = "running"
    ∧ (orchestrator_finish s).workflow_status = "completed" :=
  ⟨fun h => orchestrate_fail_of_short s h,
   fun h1 h2 h3 => orchestrate_run_of_valid s h1 h2 h3,
   rfl, rfl⟩

/-- Witness for C8: the validator marks a 2-character query `failed` and
passes a 5-character query; the start node nevertheless reports `running`
for the failed one. -/
theorem c8_witness :
    (orchestrate_workflow (create_initial_state "hi" "sess" "req")
      ).workflow_status = "failed"
    ∧ (orchestrate_workflow (create_initial_state "hello" "sess" "req")
      ).workflow_status = "running"
    ∧ (orchestrator_start_node ["search_incidents"]
        (create_initial_state "hi" "sess" "req")).workflow_status
      = "running" :=
  ⟨(c8_initial_validation ["search_incidents"]
      (create_initial_state "hi" "sess" "req")).1 (by decide),
   (c8_initial_validation ["search_incidents"]
      (create_initial_state "hello" "sess" "req")).2.1
      (by decide) (by decide) (by decide),
   (c8_initial_validation ["search_incidents"]
      (create_initial_state "hi" "sess" "req")).2.2.1⟩

/-- The first incident returned by the concrete find-incidents result:
id 42, linking resources 10, 20, 30. -/
def sampleIncident : JVal :=
  .obj [("id", .i 42), ("title", .s "db outage"),
        ("resource_mapping", .arr [.i 10, .i 20, .i 30])]

/-- A successful find-incidents-by-text result whose first incident carries
the linked-resource-id list [10, 20, 30]. -/
def incidentSearchRec : McpRecord :=
  { tool_name := "search_incidents",
    result := some (.obj [("success", .b true),
      ("sample", .arr [sampleIncident])]),
    success := .b true, agent := toolAgentName }

/-- A successful ticket-search result whose first ticket references resource
99 as a foreign key. -/
def ticketSearchRec : McpRecord :=
  { tool_name := "search_tickets",
    result := some (.obj [("success", .b true),
      ("tickets", .arr [.obj [("id", .i 7), ("resourceId", .i 99)]])]),
    success := .b true, agent := toolAgentName }

/-- Counterexample for C4: a result list containing the qualifying
find-incidents result followed by a successful ticket result appends the
ticket's resource foreign key, so the output entry is [10, 20, 30, 99],
not [10, 20, 30]. -/
theorem c4_counterexample :
    (extract_ids_from_results
        [incidentSearchRec, ticketSearchRec]).linked_resource_ids
      = some [.i 10, .i 20, .i 30, .i 99]
    ∧ ¬ ((extract_ids_from_results
        [incidentSearchRec, ticketSearchRec]).linked_resource_ids
      = some [.i 10, .i 20, .i 30]) := by
  refine ⟨rfl, ?_⟩
  intro h
  rw [show (extract_ids_from_results
      [incidentSearchRec, ticketSearchRec]).linked_resource_ids
    = some [JVal.i 10, .i 20, .i 30, .i 99] from rfl] at h
  simp at h

/-- C4 (amended to result lists whose only successful record is the
qualifying one): when the successful results are exactly one
find-incidents-by-text result whose first incident carries the
linked-resource-id list [10, 20, 30], the Entity Extractor's output map
contains `linked_resource_ids = [10, 20, 30]`. -/
theorem c4_extractor_linked_ids (rs : List McpRecord) (r : McpRecord)
    (d inc : JVal) (rest : List JVal)
    (hfilter : rs.filter (fun x => x.success.truthy) = [r])
    (hname : r.tool_name = "search_incidents")
    (hres : r.result = some d)
    (hsample : d.get "sample" = some (.arr (inc :: rest)))
    (hrm : inc.get "resource_mapping"
      = some (.arr [.i 10, .i 20, .i 30])) :
    (extract_ids_from_results rs).linked_resource_ids
      = some [.i 10, .i 20, .i 30] := by
  have hmem : r ∈ rs.filter (fun x => x.success.truthy) := by
    rw [hfilter]
    exact List.mem_singleton.mpr rfl
  have hsucc : r.success.truthy = true := by
    simpa using (List.mem_filter.mp hmem).2
  have h1 : strContains "search_incidents" "search_resources" = false := by
    decide
  have h2 : strContains "search_incidents" "search_incidents" = true := by
    decide
  have h3 : (JVal.arr (inc :: rest)).truthy = true := by
    simp [JVal.truthy]
  rw [extract_ids_from_results, foldl_extract_filter, hfilter]
  show (extractStep {} r).linked_resource_ids = some [.i 10, .i 20, .i 30]
  rw [extractStep]
  simp only [hsucc, Bool.not_true, Bool.false_eq_true, if_false, hres,
    hname, h1, h2, JVal.dget, hsample, h3, if_true, hrm]

/-- Witness for C4: on the concrete singleton result list the extractor
returns exactly the linked ids [10, 20, 30]. -/
theorem c4_witness :
    (extract_ids_from_results [incidentSearchRec]).linked_resource_ids
      = some [.i 10, .i 20, .i 30] :=
  c4_extractor_linked_ids [incidentSearchRec] incidentSearchRec _ _ _
    rfl rfl rfl rfl rfl

/-- A state carrying 12 prior conversation-history entries. -/
def chattyState : ChatState :=
  { create_initial_state "what changed today" "sess" "req" with
    conversation_history := (List.range 6).flatMap (fun n =>
      [{ role := "user", content := "q" ++ toString n },
       { role := "assistant", content := "a" ++ toString n }]),
    final_response := "all good" }

/-- Witness for C7: starting from 12 history entries, the finish stage
leaves at most 10. -/
theorem c7_witness :
    ((orchestrator_finish chattyState).conversation_history).length ≤ 10 :=
  (c7_history_cap chattyState).1

/-- A failed search result record. -/
def failedRec : McpRecord :=
  { tool_name := "search_resources",
    result := some (.obj [("success", .b false), ("error", .s "timeout")]),
    success := .b false, agent := toolAgentName }

/-- Witness for C10: on a concrete list with one failed record, extraction
agrees with extraction over the successful records only. -/
theorem c10_witness :
    extract_ids_from_results [incidentSearchRec, failedRec]
      = extract_ids_from_results
          ([incidentSearchRec, failedRec].filter
            (fun r => r.success.truthy)) :=
  c10_failed_results_extract_nothing [incidentSearchRec, failedRec]

end Spec2Proof
